import Mathlib

/-!
Shallow embedding of the Maldives-Rainfall dashboard's core logic.

The embedded code:
* `src/src/App.tsx` — `chartData` (the per-day record list), `stats`
  (the rainfall statistics deriver), `cityLocalTime` (the local-time
  helper), and the payload validation in `fetchData`;
* the Express proxy route `app.get("/api/weather")`.

JavaScript numbers are modelled as `Option ℚ`: `some q` is an ordinary
numeric value and `none` stands for `undefined` / `NaN` (the only way a
non-number enters the statistics pipeline is an out-of-bounds array read,
which yields `undefined`, and arithmetic on it, which yields `NaN`; both
propagate through `+`, `Math.max` and make `>=` false, exactly as the
`none` case of the operators below).  Display-only fields of the chart
records (`formattedDate`, `dayName`) do not feed any statistic and are
omitted from the record model.
-/

/-- One element of `chartData`: a date string paired with the amount read
from `precipitation_sum` at the same index (`none` when that index is out
of bounds, i.e. the JavaScript `undefined`). -/
structure DayRecord where
  date : String
  amount : Option ℚ
deriving DecidableEq, Inhabited

/-- The object returned by the `stats` memo in `App.tsx`:
`{ total, avg, max, today, trend, todayIndex }`. -/
structure Statistics where
  total : Option ℚ
  avg : Option ℚ
  max : Option ℚ
  today : Option ℚ
  trend : String
  todayIndex : Int
deriving DecidableEq

/-- The `daily` part of the upstream payload (`types.ts` / `fetchData`):
`time` is always an array once `daily` exists, `precipitation_sum` may be
absent. -/
structure DailyData where
  time : List String
  precipitation_sum : Option (List ℚ)
deriving DecidableEq

/-- The parts of the upstream `WeatherResponse` the embedded code reads:
`utc_offset_seconds` and the optional `daily` block. -/
structure WeatherResponse where
  utc_offset_seconds : Int
  daily : Option DailyData
deriving DecidableEq

/-- JavaScript `+` on possibly-undefined numbers: any `undefined`/`NaN`
operand makes the result `NaN`. -/
def jsAdd : Option ℚ → Option ℚ → Option ℚ
  | some a, some b => some (a + b)
  | _, _ => none

/-- JavaScript `Math.max` on two possibly-undefined numbers: any
`undefined`/`NaN` operand makes the result `NaN`. -/
def jsMax : Option ℚ → Option ℚ → Option ℚ
  | some a, some b => some (max a b)
  | _, _ => none

/-- JavaScript `Math.max(...list)` for a non-empty spread; the `[]` case
(`-Infinity` in JavaScript) is unreachable in `stats`, which returns
early on an empty series, and is mapped to `none`. -/
def jsMaxList : List (Option ℚ) → Option ℚ
  | [] => none
  | a :: rest => rest.foldl jsMax a

/-- JavaScript `>=`: comparisons involving `undefined`/`NaN` are false. -/
def jsGe : Option ℚ → Option ℚ → Bool
  | some a, some b => decide (b ≤ a)
  | _, _ => false

/-- The hard-coded reference date `todayStr = '2026-02-26'` of `stats`. -/
def todayStr : String := "2026-02-26"

/-- JavaScript `Array.prototype.slice(a, b)` for non-negative bounds
(`Nat` subtraction clamps exactly as the JavaScript index clamping
does). -/
def jsSlice (l : List DayRecord) (a b : Nat) : List DayRecord :=
  (l.drop a).take (b - a)

/-- Worker for `chartData`: `time.map((t, index) => ({ date: t, amount:
precipitation_sum[index] }))`, carrying the running index. -/
def chartDataAux (ps : List ℚ) : Nat → List String → List DayRecord
  | _, [] => []
  | i, t :: ts => ⟨t, ps[i]?⟩ :: chartDataAux ps (i + 1) ts

/-- The `chartData` memo of `App.tsx`: one record per entry of
`daily.time`, reading the amount from `daily.precipitation_sum` at the
same index. -/
def chartData (time : List String) (ps : List ℚ) : List DayRecord :=
  chartDataAux ps 0 time

/-- Worker mirroring `Array.prototype.findIndex`, returning `none`
instead of `-1` when no element matches. -/
def findIndexAux (p : DayRecord → Bool) : List DayRecord → Option Nat
  | [] => none
  | d :: ds => if p d then some 0 else (findIndexAux p ds).map (· + 1)

/-- The `todayIndex` computation of `stats`:
`chartData.findIndex(d => d.date === todayStr)`. -/
def todayIdx (l : List DayRecord) : Option Nat :=
  findIndexAux (fun d => d.date == todayStr) l

/-- The `weeklyData` of `stats`: `slice(Math.max(0, todayIndex - 6),
todayIndex + 1)` when today is found, `slice(-7)` otherwise. -/
def weeklyWindow (l : List DayRecord) : List DayRecord :=
  match todayIdx l with
  | some i => jsSlice l (i - 6) (i + 1)
  | none => l.drop (l.length - 7)

/-- The `todayData.amount` of `stats`: the record at `todayIndex`, or the
last record when today is not found. -/
def todayAmount (l : List DayRecord) : Option ℚ :=
  match todayIdx l with
  | some i => (l.getD i default).amount
  | none => (l.getD (l.length - 1) default).amount

/-- The `yesterday` of `stats`: `todayIndex > 0 ?
chartData[todayIndex - 1] : null`, then `?.amount ?? 0` (so both a
missing record and an `undefined` amount read as `0`). -/
def yesterdayAmount (l : List DayRecord) : ℚ :=
  match todayIdx l with
  | some (i + 1) => ((l.getD i default).amount).getD 0
  | _ => 0

/-- The `total` of `stats`:
`weeklyData.reduce((acc, curr) => acc + curr.amount, 0)`. -/
def weeklyTotal (l : List DayRecord) : Option ℚ :=
  ((weeklyWindow l).map DayRecord.amount).foldl jsAdd (some 0)

/-- The statistics object built by `stats` for a non-empty series:
`{ total, avg, max, today, trend, todayIndex }`. -/
def statsObj (l : List DayRecord) : Statistics :=
  { total := weeklyTotal l
    avg := (weeklyTotal l).map (fun t => t / ((weeklyWindow l).length : ℚ))
    max := jsMaxList (l.map DayRecord.amount)
    today := todayAmount l
    trend := if jsGe (todayAmount l) (some (yesterdayAmount l)) then "up" else "down"
    todayIndex := match todayIdx l with | some i => (i : Int) | none => -1 }

/-- The `stats` memo of `App.tsx`: `null` on an empty series, otherwise
the `{ total, avg, max, today, trend, todayIndex }` object. -/
def stats (l : List DayRecord) : Option Statistics :=
  if l.isEmpty then none else some (statsObj l)

/-- The payload validation of `fetchData`:
`if (!result.daily || !result.daily.precipitation_sum) throw ...`.
Only the presence of the two fields is checked (arrays are always truthy
in JavaScript, so no length condition is involved). -/
def resultValid (r : WeatherResponse) : Bool :=
  match r.daily with
  | none => false
  | some d => d.precipitation_sum.isSome

/-- The `cityLocalTime` memo of `App.tsx`, at the millisecond level:
`utc = currentTime.getTime() + currentTime.getTimezoneOffset() * 60000`,
then `new Date(utc + utc_offset_seconds * 1000)`. -/
def cityLocalTime (epochMs tzOffsetMin utcOffsetSec : Int) : Int :=
  (epochMs + tzOffsetMin * 60000) + utcOffsetSec * 1000

/-- Outcome of the proxy's `fetch` to the upstream weather API: a
successful response body, a non-ok HTTP status with its error text, or a
thrown transport error. -/
inductive UpstreamResult where
  | ok (body : String)
  | httpError (status : Nat) (errorText : String)
  | transportFail (message : String)
deriving DecidableEq

/-- Body of a proxy response: either the upstream JSON passed through
verbatim, or a `{ error, details }` envelope (`details` absent in the
400 parameter-validation reply). -/
inductive ResponseBody where
  | raw (body : String)
  | errObj (error : String) (details : Option String)
deriving DecidableEq

/-- An HTTP response of the proxy: status code plus body. -/
structure ProxyResponse where
  status : Nat
  body : ResponseBody
deriving DecidableEq

/-- JavaScript truthiness of an optional query-string parameter: absent
and empty strings are falsy. -/
def jsTruthy : Option String → Bool
  | some s => !s.isEmpty
  | none => false

/-- The `app.get("/api/weather")` handler of the Express server, as a
function of the two required query parameters and the upstream
outcome. -/
def weatherHandler (latitude longitude : Option String) (upstream : UpstreamResult) :
    ProxyResponse :=
  if !(jsTruthy latitude) || !(jsTruthy longitude) then
    ⟨400, .errObj "Latitude and longitude are required" none⟩
  else
    match upstream with
    | .ok body => ⟨200, .raw body⟩
    | .httpError st txt =>
        ⟨st, .errObj ("Weather API error: " ++ toString st) (some txt)⟩
    | .transportFail m =>
        ⟨500, .errObj "Failed to fetch weather data from source" (some m)⟩

/-- The synthetic 14-day series of spec §8: dates 2026-02-19 through
2026-03-04 (so index 7 is the hard-coded today 2026-02-26). -/
def exTimes : List String :=
  ["2026-02-19", "2026-02-20", "2026-02-21", "2026-02-22", "2026-02-23",
   "2026-02-24", "2026-02-25", "2026-02-26", "2026-02-27", "2026-02-28",
   "2026-03-01", "2026-03-02", "2026-03-03", "2026-03-04"]

/-- The synthetic amounts of spec §8:
`[1.0, 0.0, 3.5, 0.0, 2.0, 0.0, 0.0, 4.0, 0, 0, 0, 0, 0, 0]`. -/
def exAmounts : List ℚ :=
  [1, 0, 7/2, 0, 2, 0, 0, 4, 0, 0, 0, 0, 0, 0]

/-- The record list derived from the synthetic 14-day series. -/
def ex14 : List DayRecord := chartData exTimes exAmounts

/-! ### Helper lemmas -/

/-- A match returned by `findIndex` is an index into the list. -/
theorem findIndexAux_lt_length {p : DayRecord → Bool} :
    ∀ {l : List DayRecord} {i : Nat}, findIndexAux p l = some i → i < l.length := by
  intro l
  induction l with
  | nil => intro i h; simp [findIndexAux] at h
  | cons d ds ih =>
    intro i h
    by_cases hp : p d
    · simp [findIndexAux, hp] at h
      simp only [List.length_cons]
      omega
    · simp [findIndexAux, hp] at h
      obtain ⟨j, hj, rfl⟩ := h
      have := ih hj
      simp only [List.length_cons]
      omega

/-- A list with a `findIndex` match is non-empty. -/
theorem findIndexAux_ne_nil {p : DayRecord → Bool} {l : List DayRecord} {i : Nat}
    (h : findIndexAux p l = some i) : l ≠ [] := by
  intro hl
  subst hl
  simp [findIndexAux] at h

/-- A `todayIndex` match is an index into the series. -/
theorem todayIdx_lt_length {l : List DayRecord} {i : Nat} (h : todayIdx l = some i) :
    i < l.length :=
  findIndexAux_lt_length h

/-- `chartData` produces one record per date. -/
theorem chartDataAux_length (ps : List ℚ) :
    ∀ (ts : List String) (i : Nat), (chartDataAux ps i ts).length = ts.length := by
  intro ts
  induction ts with
  | nil => intro i; rfl
  | cons t ts ih => intro i; simp [chartDataAux, ih]

/-- `chartData` produces one record per date. -/
theorem chartData_length (time : List String) (ps : List ℚ) :
    (chartData time ps).length = time.length :=
  chartDataAux_length ps time 0

/-- On an index-aligned series, the amounts of the records are exactly the
input amounts (each wrapped in `some`). -/
theorem chartDataAux_map_amount (ps : List ℚ) :
    ∀ (ts : List String) (i : Nat), i + ts.length = ps.length →
      (chartDataAux ps i ts).map DayRecord.amount = (ps.drop i).map some := by
  intro ts
  induction ts with
  | nil =>
    intro i h
    simp at h
    simp [chartDataAux, List.drop_eq_nil_of_le, h.ge]
  | cons t ts ih =>
    intro i h
    have hi : i < ps.length := by simp at h; omega
    have hdrop := List.drop_eq_getElem_cons hi
    simp only [chartDataAux, List.map_cons, List.getElem?_eq_getElem hi, hdrop]
    have := ih (i + 1) (by simp at h ⊢; omega)
    simp [this]

/-- On an index-aligned series, the record amounts are the input amounts. -/
theorem chartData_map_amount {time : List String} {ps : List ℚ}
    (hlen : time.length = ps.length) :
    (chartData time ps).map DayRecord.amount = ps.map some := by
  have := chartDataAux_map_amount ps time 0 (by omega)
  simpa [chartData] using this

/-- On an index-aligned series, every record amount is defined. -/
theorem chartData_amount_isSome {time : List String} {ps : List ℚ}
    (hlen : time.length = ps.length) :
    ∀ d ∈ chartData time ps, d.amount.isSome := by
  intro d hd
  have hmem : d.amount ∈ (chartData time ps).map DayRecord.amount :=
    List.mem_map_of_mem DayRecord.amount hd
  rw [chartData_map_amount hlen] at hmem
  obtain ⟨q, _, hq⟩ := List.mem_map.mp hmem
  rw [← hq]
  rfl

/-- Folding JavaScript `+` over a list of defined amounts computes the
exact rational sum. -/
theorem foldl_jsAdd_some :
    ∀ (l : List DayRecord), (∀ d ∈ l, d.amount.isSome) → ∀ q : ℚ,
      (l.map DayRecord.amount).foldl jsAdd (some q) =
        some (q + (l.map (fun d => d.amount.getD 0)).sum) := by
  intro l
  induction l with
  | nil => intro _ q; simp
  | cons d ds ih =>
    intro h q
    obtain ⟨a, ha⟩ := Option.isSome_iff_exists.mp (h d (by simp))
    have hds : ∀ x ∈ ds, x.amount.isSome := fun x hx => h x (by simp [hx])
    simp only [List.map_cons, List.foldl_cons, ha, jsAdd]
    rw [ih hds (q + a)]
    simp [ha]
    ring

/-- Facts about `List.foldl max`: the result dominates the seed and every
element, and is the seed or one of the elements. -/
theorem foldl_max_facts :
    ∀ (qs : List ℚ) (q : ℚ), q ≤ qs.foldl max q ∧ (∀ x ∈ qs, x ≤ qs.foldl max q) ∧
      (qs.foldl max q = q ∨ qs.foldl max q ∈ qs) := by
  intro qs
  induction qs with
  | nil => intro q; simp
  | cons b qs ih =>
    intro q
    obtain ⟨h1, h2, h3⟩ := ih (max q b)
    refine ⟨le_trans (le_max_left q b) h1, ?_, ?_⟩
    · intro x hx
      rcases List.mem_cons.mp hx with rfl | hx
      · exact le_trans (le_max_right q x) h1
      · exact h2 x hx
    · rcases h3 with h3 | h3
      · rcases max_choice q b with hm | hm
        · left; rw [List.foldl_cons, h3, hm]
        · right; rw [List.foldl_cons, h3, hm]; simp
      · right; simp [h3]

/-- Folding JavaScript `Math.max` over defined amounts computes the
rational `foldl max`. -/
theorem foldl_jsMax_some :
    ∀ (qs : List ℚ) (q : ℚ), (qs.map some).foldl jsMax (some q) = some (qs.foldl max q) := by
  intro qs
  induction qs with
  | nil => intro q; simp
  | cons b qs ih => intro q; simp only [List.map_cons, List.foldl_cons, jsMax]; exact ih (max q b)

/-- The weekly window is a sublist of the whole series. -/
theorem weeklyWindow_sublist (l : List DayRecord) : (weeklyWindow l).Sublist l := by
  unfold weeklyWindow
  cases todayIdx l with
  | some i =>
    exact ((List.take_sublist _ _).trans (List.drop_sublist _ _))
  | none => exact List.drop_sublist _ _

/-- When today is found at index `i`, the weekly window has exactly
`min (i + 1) 7` records. -/
theorem weeklyWindow_length_found {l : List DayRecord} {i : Nat}
    (h : todayIdx l = some i) : (weeklyWindow l).length = min (i + 1) 7 := by
  have hi := todayIdx_lt_length h
  simp only [weeklyWindow, h, jsSlice, List.length_take, List.length_drop]
  omega

/-- The weekly window of a non-empty series is non-empty. -/
theorem weeklyWindow_length_pos {l : List DayRecord} (h : l ≠ []) :
    0 < (weeklyWindow l).length := by
  have hl : 0 < l.length := List.length_pos.mpr h
  cases htd : todayIdx l with
  | some i =>
    have hi := todayIdx_lt_length htd
    simp only [weeklyWindow, htd, jsSlice, List.length_take, List.length_drop]
    omega
  | none =>
    simp only [weeklyWindow, htd, List.length_drop]
    omega

/-- The weekly window never has more than 7 records. -/
theorem weeklyWindow_length_le (l : List DayRecord) : (weeklyWindow l).length ≤ 7 := by
  cases htd : todayIdx l with
  | some i =>
    simp only [weeklyWindow, htd, jsSlice, List.length_take, List.length_drop]
    omega
  | none =>
    simp only [weeklyWindow, htd, List.length_drop]
    omega

/-- On a non-empty series `stats` returns the statistics object. -/
theorem stats_eq_some {l : List DayRecord} (h : l ≠ []) : stats l = some (statsObj l) := by
  simp [stats, h]

/-- When all window amounts are defined, `weeklyTotal` is the exact sum of
the window amounts. -/
theorem weeklyTotal_eq_sum {l : List DayRecord}
    (h : ∀ d ∈ weeklyWindow l, d.amount.isSome) :
    weeklyTotal l = some (((weeklyWindow l).map (fun d => d.amount.getD 0)).sum) := by
  unfold weeklyTotal
  rw [foldl_jsAdd_some _ h 0]
  simp

/-! ### Claim theorems -/

/-- C1: for every index-aligned daily series in which the hard-coded today
key occurs at index `i` (as located by `findIndex`), the weekly window is
the slice of records from index `max 0 (i - 6)` through `i` — that is,
`min (i + 1) 7` records, clamped at the series start — and `weeklyTotal`
is the exact rational sum of the amounts in that window. -/
theorem weeklyTotal_exact_window_sum (time : List String) (ps : List ℚ) (i : Nat)
    (hlen : time.length = ps.length)
    (hi : todayIdx (chartData time ps) = some i) :
    ∃ s, stats (chartData time ps) = some s ∧
      weeklyWindow (chartData time ps) = jsSlice (chartData time ps) (i - 6) (i + 1) ∧
      (weeklyWindow (chartData time ps)).length = min (i + 1) 7 ∧
      s.total =
        some (((weeklyWindow (chartData time ps)).map (fun d => d.amount.getD 0)).sum) := by
  have hne : chartData time ps ≠ [] := findIndexAux_ne_nil hi
  refine ⟨statsObj (chartData time ps), stats_eq_some hne, ?_,
    weeklyWindow_length_found hi, ?_⟩
  · simp [weeklyWindow, hi]
  · show weeklyTotal (chartData time ps) = _
    apply weeklyTotal_eq_sum
    intro d hd
    exact chartData_amount_isSome hlen d
      (List.Sublist.mem hd (weeklyWindow_sublist (chartData time ps)))

/-- Witness for C1: the synthetic 14-day series, where today sits at
index 7 and the window holds the 7 records at indices 1 through 7. -/
theorem weeklyTotal_exact_window_sum_witness :
    exTimes.length = exAmounts.length ∧ todayIdx ex14 = some 7 ∧
    (∃ s, stats ex14 = some s ∧
      weeklyWindow ex14 = jsSlice ex14 (7 - 6) (7 + 1) ∧
      (weeklyWindow ex14).length = min (7 + 1) 7 ∧
      s.total = some (((weeklyWindow ex14).map (fun d => d.amount.getD 0)).sum)) :=
  ⟨rfl, by decide, weeklyTotal_exact_window_sum exTimes exAmounts 7 rfl (by decide)⟩

/-- C2: for every index-aligned daily series in which the today key occurs
at index `i`, today's amount is defined, `yesterday` is the amount at
index `i - 1` (or 0 when `i = 0`), the trend is `"up"` exactly when
today's amount is at least yesterday's, and a tie yields `"up"`. -/
theorem trend_up_iff_today_ge_yesterday (time : List String) (ps : List ℚ) (i : Nat)
    (hlen : time.length = ps.length)
    (hi : todayIdx (chartData time ps) = some i) :
    ∃ s t, stats (chartData time ps) = some s ∧ s.today = some t ∧
      yesterdayAmount (chartData time ps) =
        (if i = 0 then 0 else ((chartData time ps).getD (i - 1) default).amount.getD 0) ∧
      (s.trend = "up" ↔ yesterdayAmount (chartData time ps) ≤ t) ∧
      (t = yesterdayAmount (chartData time ps) → s.trend = "up") := by
  have hne : chartData time ps ≠ [] := findIndexAux_ne_nil hi
  have hil : i < (chartData time ps).length := todayIdx_lt_length hi
  have hmem : (chartData time ps).getD i default ∈ chartData time ps := by
    rw [List.getD_eq_getElem _ default hil]
    exact List.getElem_mem hil
  obtain ⟨t, ht⟩ :=
    Option.isSome_iff_exists.mp (chartData_amount_isSome hlen _ hmem)
  have htoday : todayAmount (chartData time ps) = some t := by
    simp only [todayAmount, hi]
    exact ht
  have htrend : (statsObj (chartData time ps)).trend =
      if yesterdayAmount (chartData time ps) ≤ t then "up" else "down" := by
    show (if jsGe (todayAmount (chartData time ps))
        (some (yesterdayAmount (chartData time ps))) then "up" else "down") = _
    rw [htoday]
    by_cases hy : yesterdayAmount (chartData time ps) ≤ t
    · simp [jsGe, hy]
    · simp [jsGe, hy]
  refine ⟨statsObj (chartData time ps), t, stats_eq_some hne, htoday, ?_, ?_, ?_⟩
  · cases i with
    | zero => simp [yesterdayAmount, hi]
    | succ j => simp [yesterdayAmount, hi]
  · rw [htrend]
    by_cases hy : yesterdayAmount (chartData time ps) ≤ t
    · rw [if_pos hy]
      exact iff_of_true rfl hy
    · rw [if_neg hy]
      exact iff_of_false (by decide) hy
  · intro hty
    rw [htrend, if_pos (hty ▸ le_refl t)]

/-- Witness for C2: the synthetic 14-day series, today at index 7 with
amount 4 against a yesterday of 0. -/
theorem trend_up_iff_today_ge_yesterday_witness :
    exTimes.length = exAmounts.length ∧ todayIdx ex14 = some 7 ∧
    (∃ s t, stats ex14 = some s ∧ s.today = some t ∧
      yesterdayAmount ex14 =
        (if 7 = 0 then 0 else (ex14.getD (7 - 1) default).amount.getD 0) ∧
      (s.trend = "up" ↔ yesterdayAmount ex14 ≤ t) ∧
      (t = yesterdayAmount ex14 → s.trend = "up")) :=
  ⟨rfl, by decide, trend_up_iff_today_ge_yesterday exTimes exAmounts 7 rfl (by decide)⟩

/-- C3: for every non-empty index-aligned daily series, the peak is the
maximum over the entire amounts list: it dominates every amount and is
itself one of the amounts. -/
theorem peak_is_entire_series_max (time : List String) (ps : List ℚ)
    (hlen : time.length = ps.length) (hne : time ≠ []) :
    ∃ s m, stats (chartData time ps) = some s ∧ s.max = some m ∧
      (∀ q ∈ ps, q ≤ m) ∧ m ∈ ps := by
  have hlen0 : (chartData time ps).length = time.length := chartData_length time ps
  have hlne : chartData time ps ≠ [] := by
    intro h
    apply hne
    rw [h] at hlen0
    exact List.length_eq_zero.mp hlen0.symm
  have hpsne : ps ≠ [] := by
    intro h
    apply hne
    subst h
    simpa using hlen
  obtain ⟨p, ps₂, rfl⟩ := List.exists_cons_of_ne_nil hpsne
  obtain ⟨h1, h2, h3⟩ := foldl_max_facts ps₂ p
  refine ⟨statsObj (chartData time (p :: ps₂)), ps₂.foldl max p,
    stats_eq_some hlne, ?_, ?_, ?_⟩
  · show jsMaxList ((chartData time (p :: ps₂)).map DayRecord.amount) = _
    rw [chartData_map_amount hlen]
    simp only [List.map_cons, jsMaxList]
    exact foldl_jsMax_some ps₂ p
  · intro q hq
    rcases List.mem_cons.mp hq with rfl | hq
    · exact h1
    · exact h2 q hq
  · rcases h3 with h3 | h3
    · rw [h3]; exact List.mem_cons_self p ps₂
    · exact List.mem_cons_of_mem p h3

/-- Witness for C3: the synthetic 14-day series, whose peak is 4. -/
theorem peak_is_entire_series_max_witness :
    exTimes.length = exAmounts.length ∧ exTimes ≠ [] ∧
    (∃ s m, stats ex14 = some s ∧ s.max = some m ∧
      (∀ q ∈ exAmounts, q ≤ m) ∧ m ∈ exAmounts) :=
  ⟨rfl, by decide, peak_is_entire_series_max exTimes exAmounts rfl (by decide)⟩

/-- C4 counterexample: on the spec's synthetic 14-day series the deriver's
weekly total is 9.5, not the claimed 10.5 (the window d1..d7 holds the
amounts 0, 3.5, 0, 2, 0, 0, 4, which sum to 9.5; 10.5 would require
including d0), so the claimed value is false. -/
theorem spec_example_total_is_not_ten_point_five :
    (stats ex14).map Statistics.total = some (some ((19 : ℚ)/2)) ∧
    some (some ((19 : ℚ)/2)) ≠ some (some ((21 : ℚ)/2)) := by
  constructor
  · with_unfolding_all rfl
  · norm_num

/-- C4 amended: on the synthetic 14-day series the deriver produces the
weekly window d1..d7, weeklyTotal = 9.5, dailyAverage = 9.5/7 ≈ 1.36,
peak = 4.0 and trend = "up". -/
theorem spec_example_stats_values :
    stats ex14 = some ⟨some (19/2), some (19/14), some 4, some 4, "up", 7⟩ ∧
    weeklyWindow ex14 = jsSlice ex14 1 8 ∧
    (weeklyWindow ex14).map DayRecord.date =
      ["2026-02-20", "2026-02-21", "2026-02-22", "2026-02-23",
       "2026-02-24", "2026-02-25", "2026-02-26"] := by
  refine ⟨?_, ?_, ?_⟩ <;> with_unfolding_all rfl

/-- A response whose dates and amounts have different lengths (2 dates,
1 amount) but which carries both `daily` and `daily.precipitation_sum`. -/
def mismatchedResponse : WeatherResponse :=
  ⟨18000, some ⟨["2026-02-25", "2026-02-26"], some [1]⟩⟩

/-- C5 counterexample: the length-mismatched response passes the
`fetchData` validation, and derivation still runs on it — a non-empty
`DayRecord` list and a `Statistics` object are produced (with the
missing amount read as `undefined`, so `total`, `avg`, `max` and `today`
are all `NaN`/`none` and the trend degrades to `"down"`). -/
theorem length_mismatch_not_rejected :
    resultValid mismatchedResponse = true ∧
    (["2026-02-25", "2026-02-26"] : List String).length ≠ ([1] : List ℚ).length ∧
    chartData ["2026-02-25", "2026-02-26"] [1] ≠ [] ∧
    stats (chartData ["2026-02-25", "2026-02-26"] [1]) =
      some ⟨none, none, none, none, "down", 1⟩ := by
  refine ⟨rfl, by decide, by decide, ?_⟩
  with_unfolding_all rfl

/-- C5 amended: the only series rejections before derivation are a
missing `daily` field or a missing `daily.precipitation_sum` field; a
length mismatch between dates and amounts is not checked and does not
cause rejection. -/
theorem resultValid_false_iff (r : WeatherResponse) :
    resultValid r = false ↔
      (r.daily = none ∨ ∃ d, r.daily = some d ∧ d.precipitation_sum = none) := by
  obtain ⟨off, daily⟩ := r
  cases daily with
  | none => simp [resultValid]
  | some d =>
    cases hd : d.precipitation_sum with
    | none => simp [resultValid, hd]
    | some l => simp [resultValid, hd]

/-- C6: on the empty daily series the deriver yields the explicit
"no data" result `none` rather than a statistics object, so no average or
maximum is ever taken over an empty series. -/
theorem empty_series_yields_no_stats (ps : List ℚ) :
    chartData [] ps = [] ∧ stats (chartData [] ps) = none :=
  ⟨rfl, rfl⟩

/-- C7: whenever statistics are produced, `dailyAverage` is `weeklyTotal`
divided by the actual window length, which after clamping is between 1
and 7. -/
theorem dailyAverage_eq_total_div_windowLength (l : List DayRecord) (s : Statistics)
    (h : stats l = some s) :
    s.avg = s.total.map (fun t => t / ((weeklyWindow l).length : ℚ)) ∧
    0 < (weeklyWindow l).length ∧ (weeklyWindow l).length ≤ 7 := by
  have hne : l ≠ [] := by
    intro hl
    subst hl
    simp [stats] at h
  rw [stats_eq_some hne] at h
  obtain rfl : statsObj l = s := Option.some_injective _ h
  exact ⟨rfl, weeklyWindow_length_pos hne, weeklyWindow_length_le l⟩

/-- Witness for C7: the synthetic 14-day series, whose window has length 7
and whose average is 9.5/7 = 19/14. -/
theorem dailyAverage_eq_total_div_windowLength_witness :
    stats ex14 = some ⟨some (19/2), some (19/14), some 4, some 4, "up", 7⟩ ∧
    ((⟨some (19/2), some (19/14), some 4, some 4, "up", 7⟩ : Statistics).avg =
      (⟨some (19/2), some (19/14), some 4, some 4, "up", 7⟩ : Statistics).total.map
        (fun t => t / ((weeklyWindow ex14).length : ℚ)) ∧
     0 < (weeklyWindow ex14).length ∧ (weeklyWindow ex14).length ≤ 7) := by
  have h : stats ex14 = some ⟨some (19/2), some (19/14), some 4, some 4, "up", 7⟩ := by
    with_unfolding_all rfl
  exact ⟨h, dailyAverage_eq_total_div_windowLength ex14 _ h⟩

/-- C8: the local-time helper returns the current instant converted to UTC
plus the target offset — epoch milliseconds plus the timezone offset in
milliseconds plus `utc_offset_seconds * 1000` — and each computation is
independent of any previous one: advancing the input clock by `d`
milliseconds advances the output by exactly `d`, with no cumulative
drift. -/
theorem cityLocalTime_utc_plus_offset (e t o d : Int) :
    cityLocalTime e t o = e + t * 60000 + o * 1000 ∧
    cityLocalTime (e + d) t o = cityLocalTime e t o + d := by
  unfold cityLocalTime
  constructor
  · ring
  · ring

/-- C9: with both coordinates supplied, the proxy returns the upstream
body verbatim with status 200 on success, a `{ error, details }` envelope
carrying the upstream status code on a non-ok upstream reply, and a
status-500 `{ error, details }` envelope on transport failure. -/
theorem weatherHandler_passthrough (lat lon : Option String) (up : UpstreamResult)
    (hlat : jsTruthy lat = true) (hlon : jsTruthy lon = true) :
    (∀ b, up = .ok b → weatherHandler lat lon up = ⟨200, .raw b⟩) ∧
    (∀ st txt, up = .httpError st txt →
      weatherHandler lat lon up =
        ⟨st, .errObj ("Weather API error: " ++ toString st) (some txt)⟩) ∧
    (∀ m, up = .transportFail m →
      weatherHandler lat lon up =
        ⟨500, .errObj "Failed to fetch weather data from source" (some m)⟩) := by
  refine ⟨?_, ?_, ?_⟩
  · rintro b rfl
    simp [weatherHandler, hlat, hlon]
  · rintro st txt rfl
    simp [weatherHandler, hlat, hlon]
  · rintro m rfl
    simp [weatherHandler, hlat, hlon]

/-- Witness for C9: a request with both coordinates and a successful
upstream reply whose body is passed through with status 200. -/
theorem weatherHandler_passthrough_witness :
    jsTruthy (some "4.1755") = true ∧ jsTruthy (some "73.5093") = true ∧
    ((∀ b, UpstreamResult.ok "null" = .ok b →
        weatherHandler (some "4.1755") (some "73.5093") (.ok "null") = ⟨200, .raw b⟩) ∧
     (∀ st txt, UpstreamResult.ok "null" = .httpError st txt →
        weatherHandler (some "4.1755") (some "73.5093") (.ok "null") =
          ⟨st, .errObj ("Weather API error: " ++ toString st) (some txt)⟩) ∧
     (∀ m, UpstreamResult.ok "null" = .transportFail m →
        weatherHandler (some "4.1755") (some "73.5093") (.ok "null") =
          ⟨500, .errObj "Failed to fetch weather data from source" (some m)⟩)) :=
  ⟨rfl, rfl, weatherHandler_passthrough (some "4.1755") (some "73.5093") (.ok "null") rfl rfl⟩

/-- C10: when the hard-coded today key does not occur in a non-empty
series, the deriver falls back to the last record's amount as today, the
last 7 records as the weekly window, `-1` as the reported index and `0`
as yesterday; hence whenever the last amount is a non-negative number the
trend is `"up"`. -/
theorem stats_fallback_last_record (l : List DayRecord) (hne : l ≠ [])
    (hnone : todayIdx l = none) :
    ∃ s, stats l = some s ∧
      s.today = (l.getLast hne).amount ∧
      weeklyWindow l = l.drop (l.length - 7) ∧
      yesterdayAmount l = 0 ∧
      s.todayIndex = -1 ∧
      (∀ a, (l.getLast hne).amount = some a → 0 ≤ a → s.trend = "up") := by
  have hl : 0 < l.length := List.length_pos.mpr hne
  have hlast : l.getLast hne = l.getD (l.length - 1) default := by
    rw [List.getLast_eq_getElem, List.getD_eq_getElem l default (by omega)]
  have htoday : todayAmount l = (l.getLast hne).amount := by
    rw [hlast]
    simp only [todayAmount, hnone]
  have hyest : yesterdayAmount l = 0 := by
    simp only [yesterdayAmount, hnone]
  refine ⟨statsObj l, stats_eq_some hne, htoday, ?_, hyest, ?_, ?_⟩
  · simp [weeklyWindow, hnone]
  · simp [statsObj, hnone]
  · intro a ha h0
    show (if jsGe (todayAmount l) (some (yesterdayAmount l)) then "up" else "down") = "up"
    rw [htoday, ha, hyest]
    simp [jsGe, h0]

/-- Witness for C10: a 2-day series without the today key; the deriver
uses the last amount 2 and reports an "up" trend. -/
theorem stats_fallback_last_record_witness :
    (chartData ["2026-02-24", "2026-02-25"] [1, 2] ≠ []) ∧
    todayIdx (chartData ["2026-02-24", "2026-02-25"] [1, 2]) = none ∧
    (∃ s, stats (chartData ["2026-02-24", "2026-02-25"] [1, 2]) = some s ∧
      s.today =
        ((chartData ["2026-02-24", "2026-02-25"] [1, 2]).getLast (by decide)).amount ∧
      weeklyWindow (chartData ["2026-02-24", "2026-02-25"] [1, 2]) =
        (chartData ["2026-02-24", "2026-02-25"] [1, 2]).drop
          ((chartData ["2026-02-24", "2026-02-25"] [1, 2]).length - 7) ∧
      yesterdayAmount (chartData ["2026-02-24", "2026-02-25"] [1, 2]) = 0 ∧
      s.todayIndex = -1 ∧
      (∀ a, ((chartData ["2026-02-24", "2026-02-25"] [1, 2]).getLast (by decide)).amount =
          some a → 0 ≤ a → s.trend = "up")) :=
  ⟨by decide, by decide,
    stats_fallback_last_record (chartData ["2026-02-24", "2026-02-25"] [1, 2])
      (by decide) (by decide)⟩
